import Mathlib

/-!
Shallow embedding of the machine ASoC driver
sound/soc/rockchip/rk3288_chamsys_audio.c (ChamSys MQ50HD/MQ70HD,
RK3288 + ES8328 codec).

Side effects on the codec control bus and on the DAI clock tree are
modelled as an explicit trace of events; the outcome of each
snd_soc_dai_set_sysclk call is supplied by an oracle so that every
error interleaving of the two clock calls can be analysed.
-/

/-- The constant CSYS_AUDIO_MCLK from the source: the fixed master-clock
frequency in Hz. -/
def CSYS_AUDIO_MCLK : Nat := 11289600

/-- The constant CSYS_AUDIO_MCLK_FS from the source: the oversampling
ratio of master clock to sample rate. -/
def CSYS_AUDIO_MCLK_FS : Nat := 256

/-- The constant CSYS_AUDIO_LRCLK from the source: the single supported
sample rate in Hz. -/
def CSYS_AUDIO_LRCLK : Nat := 44100

/-- The Linux error number EINVAL; the driver returns -EINVAL on a
sample-rate mismatch. -/
def EINVAL : Int := 22

/-- The two DAIs of the audio link: runtime->cpu_dai (the interface side)
and runtime->codec_dai (the codec side). -/
inductive Dai where
  | cpu
  | codec
deriving DecidableEq, Repr

/-- One observable hardware side effect of the driver: a
snd_soc_dai_set_sysclk call (recording the target DAI and the requested
frequency; the source always passes clk_id 0 and SND_SOC_CLOCK_OUT), or a
snd_soc_component_write of a value to a codec register address. -/
inductive Ev where
  | setSysclk (dai : Dai) (freq : Nat)
  | regWrite (addr val : Nat)
deriving DecidableEq, Repr

/-- True exactly on codec register-write events. -/
def isRegWrite : Ev → Bool
  | Ev.regWrite _ _ => true
  | _ => false

/-- The static array csys_es8328_regs from the source: the full ("ACTIVE")
ES8328 register profile, a flat byte array of (address, value) pairs
terminated by the 0xFF sentinel. Transcribed byte for byte. -/
def csys_es8328_regs : List Nat :=
  [0x00, 0x35,
   0x03, 0x09,
   0x09, 0x00,
   0x0a, 0x00,
   0x0b, 0x00,
   0x10, 0x00,
   0x11, 0x00,
   0x12, 0xea,
   0x13, 0xc0,
   0x14, 0x05,
   0x15, 0x06,
   0x16, 0x53,
   0x19, 0x02,
   0x1A, 0x0A,
   0x1B, 0x0A,
   0x26, 0x12,
   0x27, 0xb8,
   0x28, 0x38,
   0x29, 0x38,
   0x2A, 0xb8,
   0x2e, 0x24,
   0x2f, 0x24,
   0x30, 0x00,
   0x31, 0x00,
   0xFF, 0xFF]

/-- The static array csys_es8328_regs_quiet from the source: the muting
("QUIET") profile, driving the two DAC output volume registers to zero,
terminated by the 0xFF sentinel. -/
def csys_es8328_regs_quiet : List Nat :=
  [0x2e, 0x00,
   0x2f, 0x00,
   0xFF, 0xFF]

/-- The function csys_audio_set_es8328_regs from the source, as the list of
register writes it issues: `for(i = 0; regs[i] != 0xFF; i += 2)
snd_soc_component_write(codec, regs[i], regs[i+1]);` — walk the flat array
two bytes at a time, stop at the first even-offset byte equal to 0xFF,
and write each (address, value) pair in order. -/
def csys_audio_set_es8328_regs : List Nat → List Ev
  | a :: v :: rest =>
      if a = 0xFF then [] else Ev.regWrite a v :: csys_audio_set_es8328_regs rest
  | _ => []

/-- The fields of struct snd_soc_pcm_runtime that the driver reads:
num_components and whether components[1] (the codec component slot) is
non-NULL. -/
structure PcmRuntime where
  num_components : Nat
  components1 : Bool
deriving DecidableEq, Repr

/-- The codec-presence check the driver performs before touching registers:
`rtd->num_components == 3 && rtd->components[1]`. -/
def codecPresent (rtd : PcmRuntime) : Bool :=
  decide (rtd.num_components = 3) && rtd.components1

/-- A clock oracle: the return code snd_soc_dai_set_sysclk would give for a
given DAI and frequency (0 for success, a negative errno for failure). -/
def ClockOracle : Type := Dai → Nat → Int

/-- The function csys_audio_set_mclk from the source: set the cpu DAI
sysclk to CSYS_AUDIO_MCLK, return the error on failure; otherwise set the
codec DAI sysclk to CSYS_AUDIO_MCLK, return the error on failure;
otherwise return 0. The trace records each set_sysclk call made. -/
def csys_audio_set_mclk (clk : ClockOracle) : Int × List Ev :=
  let ret := clk Dai.cpu CSYS_AUDIO_MCLK
  if ret ≠ 0 then
    (ret, [Ev.setSysclk Dai.cpu CSYS_AUDIO_MCLK])
  else
    let ret2 := clk Dai.codec CSYS_AUDIO_MCLK
    if ret2 ≠ 0 then
      (ret2, [Ev.setSysclk Dai.cpu CSYS_AUDIO_MCLK,
              Ev.setSysclk Dai.codec CSYS_AUDIO_MCLK])
    else
      (0, [Ev.setSysclk Dai.cpu CSYS_AUDIO_MCLK,
           Ev.setSysclk Dai.codec CSYS_AUDIO_MCLK])

/-- The function csys_audio_hw_params from the source: if the requested
rate differs from CSYS_AUDIO_LRCLK return -EINVAL, else call
csys_audio_set_mclk and propagate its error, else return 0. -/
def csys_audio_hw_params (clk : ClockOracle) (rate : Nat) : Int × List Ev :=
  if rate ≠ CSYS_AUDIO_LRCLK then
    (-EINVAL, [])
  else
    let m := csys_audio_set_mclk clk
    if m.1 ≠ 0 then m else (0, m.2)

/-- The function csys_audio_startup from the source: if the codec-presence
check passes, apply the full csys_es8328_regs profile to the codec; always
return 0. -/
def csys_audio_startup (rtd : PcmRuntime) : Int × List Ev :=
  (0, if codecPresent rtd then csys_audio_set_es8328_regs csys_es8328_regs else [])

/-- The function csys_audio_shutdown from the source: if the codec-presence
check passes, apply the csys_es8328_regs_quiet profile. The C function
returns void, so the model's codomain is just the event trace — there is no
result code to fail with. -/
def csys_audio_shutdown (rtd : PcmRuntime) : List Ev :=
  if codecPresent rtd then csys_audio_set_es8328_regs csys_es8328_regs_quiet else []

/-- The function csys_audio_init from the source (the dai_link init
callback, i.e. Card Init): call csys_audio_set_mclk and return its error on
failure; otherwise, if the codec-presence check passes, apply the
csys_es8328_regs_quiet profile; return 0. -/
def csys_audio_init (clk : ClockOracle) (rtd : PcmRuntime) : Int × List Ev :=
  let m := csys_audio_set_mclk clk
  if m.1 ≠ 0 then m
  else
    (0, m.2 ++ if codecPresent rtd then
                 csys_audio_set_es8328_regs csys_es8328_regs_quiet
               else [])

/-- Modelled from the spec: the Stream Start lifecycle event. The code that
drives the rk_ops callbacks — the ALSA pcm core — is kernel code outside
src/: it invokes the ops bound in rk_ops, calling .startup
(csys_audio_startup) when the substream is opened and, if that succeeded,
.hw_params (csys_audio_hw_params) when the stream parameters, including the
sample rate, are set. Stream Start is this open-then-set-params sequence;
its result is the first failing callback's result and its trace is the
concatenation of the callbacks' traces. -/
def streamStart (clk : ClockOracle) (rtd : PcmRuntime) (rate : Nat) :
    Int × List Ev :=
  let s := csys_audio_startup rtd
  if s.1 ≠ 0 then s
  else
    let h := csys_audio_hw_params clk rate
    (h.1, s.2 ++ h.2)

/-- Modelled from the spec: a full stream lifecycle as driven by the ALSA
pcm core (outside src/): Stream Start (open + parameter setting), then the
.shutdown callback (csys_audio_shutdown) on close — the core invokes
.shutdown regardless of whether hw_params succeeded. The result code is
Stream Start's (shutdown returns void and cannot alter it). -/
def streamCycle (clk : ClockOracle) (rtd : PcmRuntime) (rate : Nat) :
    Int × List Ev :=
  let st := streamStart clk rtd rate
  (st.1, st.2 ++ csys_audio_shutdown rtd)

/-- Group a flat register table into its (address, value) pairs. -/
def regPairs : List Nat → List (Nat × Nat)
  | a :: v :: rest => (a, v) :: regPairs rest
  | _ => []

/-- The addresses written by a trace of events. -/
def writeAddrs (evs : List Ev) : List Nat :=
  evs.filterMap fun e =>
    match e with
    | Ev.regWrite a _ => some a
    | _ => none

/-- Codec register state: the last value written to each register address,
if any. -/
def RegState : Type := Nat → Option Nat

/-- Effect of a single event on codec register state: a register write
updates the written address; a sysclk call leaves register state unchanged. -/
def applyEv (s : RegState) : Ev → RegState
  | Ev.regWrite a v => fun x => if x = a then some v else s x
  | Ev.setSysclk _ _ => s

/-- Effect of a trace of events on codec register state, in order. -/
def applyEvs (s : RegState) (evs : List Ev) : RegState :=
  evs.foldl applyEv s

/-- One step of the last-written-value scan. -/
def lastValStep (x : Nat) (acc : Option Nat) (e : Ev) : Option Nat :=
  match e with
  | Ev.regWrite a v => if x = a then some v else acc
  | Ev.setSysclk _ _ => acc

/-- The last value a trace writes to address x, if any. -/
def lastVal (x : Nat) (evs : List Ev) : Option Nat :=
  evs.foldl (lastValStep x) none

/-- The two output line-level registers of the ES8328 the quiet profile
drives to zero: 0x2e (DAC LOUT1 volume) and 0x2f (DAC ROUT1 volume), per
the register comments in the source tables. -/
def outputLineLevelRegs : List Nat := [0x2e, 0x2f]

/-! ## Helper lemmas -/

/-- csys_audio_set_mclk only issues set_sysclk calls, never a register
write. -/
lemma set_mclk_no_regWrite (clk : ClockOracle) :
    ∀ e ∈ (csys_audio_set_mclk clk).2, isRegWrite e = false := by
  intro e he
  unfold csys_audio_set_mclk at he
  by_cases h1 : clk Dai.cpu CSYS_AUDIO_MCLK = 0
  · by_cases h2 : clk Dai.codec CSYS_AUDIO_MCLK = 0
    · simp [h1, h2] at he
      rcases he with h | h <;> simp [h, isRegWrite]
    · simp [h1, h2] at he
      rcases he with h | h <;> simp [h, isRegWrite]
  · simp [h1] at he
    simp [he, isRegWrite]

/-- The write list produced by csys_audio_set_es8328_regs is the table's
pair list up to (and excluding) the first sentinel pair, written in table
order. -/
lemma set_regs_eq_takeWhile :
    ∀ flat : List Nat,
      csys_audio_set_es8328_regs flat =
        ((regPairs flat).takeWhile fun p => p.1 != 0xFF).map
          fun p => Ev.regWrite p.1 p.2
  | [] => rfl
  | [_] => rfl
  | a :: v :: rest => by
      by_cases h : a = 0xFF
      · simp [csys_audio_set_es8328_regs, regPairs, List.takeWhile, h]
      · simp only [csys_audio_set_es8328_regs, regPairs, List.takeWhile,
          if_neg h]
        have hb : (a != 0xFF) = true := by simp [bne_iff_ne, h]
        simp [hb, set_regs_eq_takeWhile rest]

/-- Scanning for the last write to x with an arbitrary accumulator equals
the scan from none, with the accumulator as fallback. -/
lemma foldl_lastValStep (x : Nat) :
    ∀ (evs : List Ev) (acc : Option Nat),
      evs.foldl (lastValStep x) acc = (lastVal x evs).or acc := by
  intro evs
  induction evs with
  | nil => intro acc; simp [lastVal]
  | cons e t ih =>
      intro acc
      have hstep : ∀ a, lastValStep x a e = (lastValStep x none e).or a := by
        intro a
        cases e with
        | regWrite r v =>
            simp only [lastValStep]
            split <;> simp
        | setSysclk d f => simp [lastValStep]
      calc (e :: t).foldl (lastValStep x) acc
          = t.foldl (lastValStep x) (lastValStep x acc e) := rfl
        _ = (lastVal x t).or (lastValStep x acc e) := ih _
        _ = (lastVal x t).or ((lastValStep x none e).or acc) := by
              rw [hstep]
        _ = ((lastVal x t).or (lastValStep x none e)).or acc := by
              rw [Option.or_assoc]
        _ = (lastVal x (e :: t)).or acc := by
              have : lastVal x (e :: t)
                  = (lastVal x t).or (lastValStep x none e) := by
                show t.foldl (lastValStep x) (lastValStep x none e)
                    = (lastVal x t).or (lastValStep x none e)
                exact ih _
              rw [this]

/-- Pointwise effect of a trace on register state: the last value written
to the address, falling back to the prior state. -/
lemma applyEvs_apply :
    ∀ (evs : List Ev) (s : RegState) (x : Nat),
      applyEvs s evs x = (lastVal x evs).or (s x) := by
  intro evs
  induction evs with
  | nil => intro s x; simp [applyEvs, lastVal]
  | cons e t ih =>
      intro s x
      have h1 : applyEvs s (e :: t) x = applyEvs (applyEv s e) t x := rfl
      have h2 : applyEv s e x = (lastValStep x none e).or (s x) := by
        cases e with
        | regWrite a v =>
            simp only [applyEv, lastValStep]
            split <;> simp
        | setSysclk d f => simp [applyEv, lastValStep]
      have h3 : lastVal x (e :: t) = (lastVal x t).or (lastValStep x none e) := by
        show t.foldl (lastValStep x) (lastValStep x none e)
            = (lastVal x t).or (lastValStep x none e)
        exact foldl_lastValStep x t _
      rw [h1, ih, h2, h3, Option.or_assoc]

/-- A trace has a last write to x exactly when x is among its written
addresses. -/
lemma lastVal_eq_none_iff :
    ∀ (evs : List Ev) (x : Nat), lastVal x evs = none ↔ x ∉ writeAddrs evs := by
  intro evs
  induction evs with
  | nil => intro x; simp [lastVal, writeAddrs]
  | cons e t ih =>
      intro x
      have h3 : lastVal x (e :: t) = (lastVal x t).or (lastValStep x none e) := by
        show t.foldl (lastValStep x) (lastValStep x none e)
            = (lastVal x t).or (lastValStep x none e)
        exact foldl_lastValStep x t _
      rw [h3]
      cases e with
      | regWrite a v =>
          by_cases hx : x = a
          · subst hx
            simp [lastValStep, writeAddrs, Option.or]
            cases lastVal x t <;> simp
          · simp [lastValStep, hx, writeAddrs, List.filterMap_cons, ih,
              Ne.symm hx]
      | setSysclk d f =>
          simp [lastValStep, writeAddrs, List.filterMap_cons, ih]

/-- Applying the same trace twice leaves the state of the single
application. -/
lemma applyEvs_self_idem (evs : List Ev) (s : RegState) :
    applyEvs (applyEvs s evs) evs = applyEvs s evs := by
  funext x
  rw [applyEvs_apply, applyEvs_apply]
  cases lastVal x evs <;> simp

/-! ## Concrete inputs used by witnesses and counterexamples -/

/-- A clock oracle on which every set_sysclk call succeeds. -/
def clkOK : ClockOracle := fun _ _ => 0

/-- A clock oracle on which the cpu (interface) DAI rejects the clock with
-EIO while the codec DAI would succeed. -/
def clkCpuBad : ClockOracle := fun d _ => if d = Dai.cpu then -5 else 0

/-- A clock oracle on which the codec DAI rejects the clock with -ENXIO
while the cpu DAI succeeds. -/
def clkCodecBad : ClockOracle := fun d _ => if d = Dai.codec then -6 else 0

/-- A runtime whose component array has the codec bound in slot 1 (the
shape the driver's presence check accepts). -/
def rtdCodec : PcmRuntime := { num_components := 3, components1 := true }

/-- A runtime on which the presence check fails: three components but a
NULL components[1]. -/
def rtdNoCodec : PcmRuntime := { num_components := 3, components1 := false }

/-! ## Claims -/

/-- Claim C2: the Clock Synchronizer (csys_audio_set_mclk) sets the master
clock to the fixed frequency 11289600 on the interface (cpu) DAI first and
then on the codec DAI; if the interface-side call fails its error is
returned and the codec-side call is never attempted, and if the interface
side succeeds but the codec side fails the codec-side error is returned. -/
theorem C2_set_mclk (clk : ClockOracle) :
    (clk Dai.cpu CSYS_AUDIO_MCLK ≠ 0 →
      csys_audio_set_mclk clk
        = (clk Dai.cpu CSYS_AUDIO_MCLK, [Ev.setSysclk Dai.cpu CSYS_AUDIO_MCLK])) ∧
    (clk Dai.cpu CSYS_AUDIO_MCLK = 0 →
      (csys_audio_set_mclk clk).2
        = [Ev.setSysclk Dai.cpu CSYS_AUDIO_MCLK,
           Ev.setSysclk Dai.codec CSYS_AUDIO_MCLK] ∧
      (clk Dai.codec CSYS_AUDIO_MCLK ≠ 0 →
        (csys_audio_set_mclk clk).1 = clk Dai.codec CSYS_AUDIO_MCLK) ∧
      (clk Dai.codec CSYS_AUDIO_MCLK = 0 → (csys_audio_set_mclk clk).1 = 0)) := by
  constructor
  · intro h1
    simp [csys_audio_set_mclk, h1]
  · intro h1
    by_cases h2 : clk Dai.codec CSYS_AUDIO_MCLK = 0 <;>
      simp [csys_audio_set_mclk, h1, h2]

/-- Witness for C2: on an oracle whose interface side fails with -5 the
call returns -5 having touched only the interface DAI; on an all-success
oracle both DAIs are set in order and 0 is returned; on an oracle whose
codec side fails with -6 that error is returned. -/
theorem C2_set_mclk_witness :
    csys_audio_set_mclk clkCpuBad
      = (-5, [Ev.setSysclk Dai.cpu CSYS_AUDIO_MCLK]) ∧
    ((csys_audio_set_mclk clkOK).2
        = [Ev.setSysclk Dai.cpu CSYS_AUDIO_MCLK,
           Ev.setSysclk Dai.codec CSYS_AUDIO_MCLK] ∧
      (csys_audio_set_mclk clkOK).1 = 0) ∧
    (csys_audio_set_mclk clkCodecBad).1 = -6 := by
  refine ⟨(C2_set_mclk clkCpuBad).1 (by decide), ⟨?_, ?_⟩, ?_⟩
  · exact ((C2_set_mclk clkOK).2 (by decide)).1
  · exact ((C2_set_mclk clkOK).2 (by decide)).2.2 (by decide)
  · exact ((C2_set_mclk clkCodecBad).2 (by decide)).2.1 (by decide)

/-- Claim C3: for every register profile table terminated by the sentinel
address 0xFF, applying the profile (csys_audio_set_es8328_regs) issues
exactly one write per (address, value) pair, in table order, for precisely
the pairs preceding the first sentinel, and never writes the sentinel entry
or any entry past it. -/
theorem C3_apply_profile (flat : List Nat)
    (_hsent : 0xFF ∈ (regPairs flat).map Prod.fst) :
    csys_audio_set_es8328_regs flat
      = ((regPairs flat).takeWhile fun p => p.1 != 0xFF).map
          (fun p => Ev.regWrite p.1 p.2) ∧
    ∀ p ∈ (regPairs flat).takeWhile fun p => p.1 != 0xFF, p.1 ≠ 0xFF := by
  refine ⟨set_regs_eq_takeWhile flat, ?_⟩
  intro p hp
  have hb := List.mem_takeWhile_imp hp
  simpa [bne_iff_ne] using hb

/-- Witness for C3 at the concrete ACTIVE table, which is sentinel
terminated: the writes are the 24 pairs before the sentinel, in order, and
none of them addresses 0xFF. -/
theorem C3_apply_profile_witness :
    csys_audio_set_es8328_regs csys_es8328_regs
      = ((regPairs csys_es8328_regs).takeWhile fun p => p.1 != 0xFF).map
          (fun p => Ev.regWrite p.1 p.2) ∧
    ∀ p ∈ (regPairs csys_es8328_regs).takeWhile fun p => p.1 != 0xFF,
      p.1 ≠ 0xFF :=
  C3_apply_profile csys_es8328_regs (by decide)

/-- Claim C4: with codec register state as a map from address to last value
written, applying ACTIVE, then QUIET, then ACTIVE again yields the same
final state as applying ACTIVE alone, and reapplying any one profile twice
yields the same state as applying it once. -/
theorem C4_profile_idempotent (s : RegState) :
    applyEvs
        (applyEvs
          (applyEvs s (csys_audio_set_es8328_regs csys_es8328_regs))
          (csys_audio_set_es8328_regs csys_es8328_regs_quiet))
        (csys_audio_set_es8328_regs csys_es8328_regs)
      = applyEvs s (csys_audio_set_es8328_regs csys_es8328_regs) ∧
    ∀ regs : List Nat,
      applyEvs (applyEvs s (csys_audio_set_es8328_regs regs))
          (csys_audio_set_es8328_regs regs)
        = applyEvs s (csys_audio_set_es8328_regs regs) := by
  constructor
  · funext x
    rw [applyEvs_apply, applyEvs_apply, applyEvs_apply]
    rcases h : lastVal x (csys_audio_set_es8328_regs csys_es8328_regs) with _ | v
    · have hsub : ∀ y ∈ writeAddrs (csys_audio_set_es8328_regs csys_es8328_regs_quiet),
          y ∈ writeAddrs (csys_audio_set_es8328_regs csys_es8328_regs) := by
        decide
      have hxA : x ∉ writeAddrs (csys_audio_set_es8328_regs csys_es8328_regs) :=
        (lastVal_eq_none_iff _ x).mp h
      have hxQ : x ∉ writeAddrs (csys_audio_set_es8328_regs csys_es8328_regs_quiet) :=
        fun hx => hxA (hsub x hx)
      have hq : lastVal x (csys_audio_set_es8328_regs csys_es8328_regs_quiet) = none :=
        (lastVal_eq_none_iff _ x).mpr hxQ
      simp [hq]
    · simp
  · intro regs
    exact applyEvs_self_idem _ s

/-- Counterexample to claim C1 as stated: with a codec present and every
clock call succeeding, a Stream Start requesting 48000 Hz is indeed
rejected with -EINVAL, yet the operation has performed codec register
writes (the ACTIVE profile was applied by the stream-open startup callback
before rate validation), so the state is not unchanged on rejection. -/
theorem C1_counterexample :
    (streamStart clkOK rtdCodec 48000).1 = -EINVAL ∧
    ((streamStart clkOK rtdCodec 48000).2.any isRegWrite) = true := by
  decide

/-- Claim C1 as amended: a Stream Start whose rate differs from 44100 is
rejected with -EINVAL; the rate-validating hw_params step performs no
clock-configuration call and no register write (it returns -EINVAL with an
empty trace, so no clock event appears anywhere in the operation); but the
stream-open startup step has already applied the ACTIVE profile when a
codec is present, so the operation's trace is exactly the startup step's
ACTIVE-profile writes. -/
theorem C1_reject_rate (clk : ClockOracle) (rtd : PcmRuntime) (rate : Nat)
    (hrate : rate ≠ CSYS_AUDIO_LRCLK) :
    (streamStart clk rtd rate).1 = -EINVAL ∧
    csys_audio_hw_params clk rate = (-EINVAL, []) ∧
    (streamStart clk rtd rate).2 = (csys_audio_startup rtd).2 ∧
    (∀ e ∈ (streamStart clk rtd rate).2, isRegWrite e = true) ∧
    (codecPresent rtd = true →
      (streamStart clk rtd rate).2 = csys_audio_set_es8328_regs csys_es8328_regs) := by
  have hhw : csys_audio_hw_params clk rate = (-EINVAL, []) := by
    simp [csys_audio_hw_params, hrate]
  have hst : streamStart clk rtd rate
      = (-EINVAL, (csys_audio_startup rtd).2) := by
    simp [streamStart, csys_audio_startup, hhw]
  refine ⟨by simp [hst], hhw, by simp [hst], ?_, ?_⟩
  · intro e he
    rw [hst] at he
    simp only [csys_audio_startup] at he
    rcases hc : codecPresent rtd with _ | _
    · simp [hc] at he
    · rw [hc] at he
      simp only [if_pos rfl] at he
      have := set_regs_eq_takeWhile csys_es8328_regs
      rw [this] at he
      rcases List.mem_map.mp he with ⟨p, _, hpe⟩
      simp [← hpe, isRegWrite]
  · intro hc
    simp [hst, csys_audio_startup, hc]

/-- Witness for C1's amended theorem at the concrete inputs of the
counterexample: rate 48000, codec present, all clock calls able to
succeed. -/
theorem C1_reject_rate_witness :
    (streamStart clkOK rtdCodec 48000).1 = -EINVAL ∧
    csys_audio_hw_params clkOK 48000 = (-EINVAL, []) ∧
    (streamStart clkOK rtdCodec 48000).2 = (csys_audio_startup rtdCodec).2 ∧
    (∀ e ∈ (streamStart clkOK rtdCodec 48000).2, isRegWrite e = true) ∧
    (codecPresent rtdCodec = true →
      (streamStart clkOK rtdCodec 48000).2
        = csys_audio_set_es8328_regs csys_es8328_regs) :=
  C1_reject_rate clkOK rtdCodec 48000 (by decide)

/-- Claim C5: Card Init (csys_audio_init) first invokes the Clock
Synchronizer; if that fails Card Init returns the same failure having
performed no register write; if it succeeds and a codec is present, the
register writes Card Init performs are exactly the QUIET profile — which
differs from the ACTIVE profile, so ACTIVE is never applied. -/
theorem C5_card_init (clk : ClockOracle) (rtd : PcmRuntime) :
    ((csys_audio_set_mclk clk).1 ≠ 0 →
      csys_audio_init clk rtd = csys_audio_set_mclk clk ∧
      ∀ e ∈ (csys_audio_init clk rtd).2, isRegWrite e = false) ∧
    ((csys_audio_set_mclk clk).1 = 0 → codecPresent rtd = true →
      (csys_audio_init clk rtd).1 = 0 ∧
      (csys_audio_init clk rtd).2
        = (csys_audio_set_mclk clk).2
            ++ csys_audio_set_es8328_regs csys_es8328_regs_quiet ∧
      (csys_audio_init clk rtd).2.filter isRegWrite
        = csys_audio_set_es8328_regs csys_es8328_regs_quiet ∧
      csys_audio_set_es8328_regs csys_es8328_regs_quiet
        ≠ csys_audio_set_es8328_regs csys_es8328_regs) := by
  constructor
  · intro hm
    have hinit : csys_audio_init clk rtd = csys_audio_set_mclk clk := by
      simp [csys_audio_init, hm]
    exact ⟨hinit, by rw [hinit]; exact set_mclk_no_regWrite clk⟩
  · intro hm hc
    have hinit : csys_audio_init clk rtd
        = (0, (csys_audio_set_mclk clk).2
            ++ csys_audio_set_es8328_regs csys_es8328_regs_quiet) := by
      simp [csys_audio_init, hm, hc]
    refine ⟨by simp [hinit], by simp [hinit], ?_, by decide⟩
    rw [hinit]
    simp only [List.filter_append]
    have h1 : (csys_audio_set_mclk clk).2.filter isRegWrite = [] := by
      rw [List.filter_eq_nil_iff]
      intro e he
      simp [set_mclk_no_regWrite clk e he]
    have h2 : (csys_audio_set_es8328_regs csys_es8328_regs_quiet).filter isRegWrite
        = csys_audio_set_es8328_regs csys_es8328_regs_quiet := by decide
    rw [h1, h2]
    rfl

/-- Witness for C5 on both branches: with the interface clock failing,
Card Init returns that failure with no register write; with every clock
call succeeding and a codec present, Card Init succeeds and its register
writes are exactly the QUIET profile. -/
theorem C5_card_init_witness :
    (csys_audio_init clkCpuBad rtdCodec = csys_audio_set_mclk clkCpuBad) ∧
    ((csys_audio_init clkOK rtdCodec).1 = 0 ∧
      (csys_audio_init clkOK rtdCodec).2.filter isRegWrite
        = csys_audio_set_es8328_regs csys_es8328_regs_quiet) := by
  refine ⟨((C5_card_init clkCpuBad rtdCodec).1 (by decide)).1, ?_, ?_⟩
  · exact ((C5_card_init clkOK rtdCodec).2 (by decide) (by decide)).1
  · exact ((C5_card_init clkOK rtdCodec).2 (by decide) (by decide)).2.2.1

/-- Counterexample to claim C6 as stated: with a codec present, every clock
call succeeding, and the supported rate 44100 requested, Stream Start
succeeds — but its very first hardware action is already an ACTIVE-profile
register write (address 0x00, value 0x35), so the Clock Synchronizer is
not invoked before the ACTIVE profile is applied. -/
theorem C6_counterexample :
    (streamStart clkOK rtdCodec 44100).1 = 0 ∧
    (streamStart clkOK rtdCodec 44100).2.head? = some (Ev.regWrite 0x00 0x35) := by
  decide

/-- Claim C6 as amended: Stream Start at the supported rate 44100 (with
both clock calls succeeding) succeeds, performs exactly one Clock
Synchronizer invocation — its clock subtrace is exactly interface then
codec, once each, at the fixed frequency — and, if a codec is present,
applies the ACTIVE profile; but the ACTIVE profile is applied at stream
open, before rate validation and before the clock configuration. -/
theorem C6_stream_start_ok (clk : ClockOracle) (rtd : PcmRuntime)
    (h1 : clk Dai.cpu CSYS_AUDIO_MCLK = 0)
    (h2 : clk Dai.codec CSYS_AUDIO_MCLK = 0) :
    (streamStart clk rtd CSYS_AUDIO_LRCLK).1 = 0 ∧
    (streamStart clk rtd CSYS_AUDIO_LRCLK).2
      = (if codecPresent rtd then csys_audio_set_es8328_regs csys_es8328_regs
         else [])
        ++ [Ev.setSysclk Dai.cpu CSYS_AUDIO_MCLK,
            Ev.setSysclk Dai.codec CSYS_AUDIO_MCLK] ∧
    (streamStart clk rtd CSYS_AUDIO_LRCLK).2.filter (fun e => !isRegWrite e)
      = [Ev.setSysclk Dai.cpu CSYS_AUDIO_MCLK,
         Ev.setSysclk Dai.codec CSYS_AUDIO_MCLK] := by
  have hm : csys_audio_set_mclk clk
      = (0, [Ev.setSysclk Dai.cpu CSYS_AUDIO_MCLK,
             Ev.setSysclk Dai.codec CSYS_AUDIO_MCLK]) := by
    simp [csys_audio_set_mclk, h1, h2]
  have hhw : csys_audio_hw_params clk CSYS_AUDIO_LRCLK
      = (0, [Ev.setSysclk Dai.cpu CSYS_AUDIO_MCLK,
             Ev.setSysclk Dai.codec CSYS_AUDIO_MCLK]) := by
    simp [csys_audio_hw_params, hm]
  have hst : streamStart clk rtd CSYS_AUDIO_LRCLK
      = (0, (if codecPresent rtd then csys_audio_set_es8328_regs csys_es8328_regs
             else [])
          ++ [Ev.setSysclk Dai.cpu CSYS_AUDIO_MCLK,
              Ev.setSysclk Dai.codec CSYS_AUDIO_MCLK]) := by
    simp [streamStart, csys_audio_startup, hhw]
  refine ⟨by simp [hst], by simp [hst], ?_⟩
  rw [hst]
  simp only [List.filter_append]
  have hA : (csys_audio_set_es8328_regs csys_es8328_regs).filter
      (fun e => !isRegWrite e) = [] := by decide
  rcases hc : codecPresent rtd with _ | _
  · simp [hc, isRegWrite]
  · rw [if_pos rfl, hA]
    decide

/-- Witness for C6's amended theorem: both clock calls succeed on clkOK and
a codec is present; the resulting trace is the ACTIVE writes followed by
the two clock events. -/
theorem C6_stream_start_ok_witness :
    (streamStart clkOK rtdCodec CSYS_AUDIO_LRCLK).1 = 0 ∧
    (streamStart clkOK rtdCodec CSYS_AUDIO_LRCLK).2
      = (if codecPresent rtdCodec then csys_audio_set_es8328_regs csys_es8328_regs
         else [])
        ++ [Ev.setSysclk Dai.cpu CSYS_AUDIO_MCLK,
            Ev.setSysclk Dai.codec CSYS_AUDIO_MCLK] ∧
    (streamStart clkOK rtdCodec CSYS_AUDIO_LRCLK).2.filter (fun e => !isRegWrite e)
      = [Ev.setSysclk Dai.cpu CSYS_AUDIO_MCLK,
         Ev.setSysclk Dai.codec CSYS_AUDIO_MCLK] :=
  C6_stream_start_ok clkOK rtdCodec (by decide) (by decide)

/-- Claim C7: Stream Stop (csys_audio_shutdown) applies the QUIET profile
exactly when a codec is present; it is void-valued, so the stream cycle's
result code is Stream Start's unchanged; its writes are appended after
Stream Start's trace whatever that trace was; and whenever a codec is
present the QUIET profile ends the cycle's trace regardless of the
requested rate or the clock outcomes (i.e. regardless of whether Stream
Start succeeded). -/
theorem C7_stream_stop (clk : ClockOracle) (rtd : PcmRuntime) (rate : Nat) :
    csys_audio_shutdown rtd
      = (if codecPresent rtd then csys_audio_set_es8328_regs csys_es8328_regs_quiet
         else []) ∧
    (streamCycle clk rtd rate).1 = (streamStart clk rtd rate).1 ∧
    (streamCycle clk rtd rate).2
      = (streamStart clk rtd rate).2 ++ csys_audio_shutdown rtd ∧
    (codecPresent rtd = true →
      List.IsSuffix (csys_audio_set_es8328_regs csys_es8328_regs_quiet)
        ((streamCycle clk rtd rate).2)) := by
  refine ⟨rfl, rfl, rfl, ?_⟩
  intro hc
  refine ⟨(streamStart clk rtd rate).2, ?_⟩
  show (streamStart clk rtd rate).2
        ++ csys_audio_set_es8328_regs csys_es8328_regs_quiet
      = (streamCycle clk rtd rate).2
  simp [streamCycle, csys_audio_shutdown, hc]

/-- Witness for C7 at a Stream Start that failed (unsupported rate 48000,
codec present): the cycle's result is the -EINVAL failure, yet the QUIET
profile still ends the trace. -/
theorem C7_stream_stop_witness :
    List.IsSuffix (csys_audio_set_es8328_regs csys_es8328_regs_quiet)
      ((streamCycle clkOK rtdCodec 48000).2) ∧
    (streamCycle clkOK rtdCodec 48000).1 = -EINVAL :=
  ⟨(C7_stream_stop clkOK rtdCodec 48000).2.2.2 (by decide), by decide⟩

/-- Claim C8: when the codec-presence check fails, Card Init, the Stream
Start callbacks, and Stream Stop perform no codec register write; the
startup callback still returns 0 (it cannot fail) and shutdown is a no-op
without a failure path; Card Init fails only when (and how) the Clock
Synchronizer fails, and a supported-rate Stream Start fails only when (and
how) the Clock Synchronizer fails. -/
theorem C8_no_codec (clk : ClockOracle) (rtd : PcmRuntime) (rate : Nat)
    (h : codecPresent rtd = false) :
    (∀ e ∈ (csys_audio_init clk rtd).2, isRegWrite e = false) ∧
    ((csys_audio_init clk rtd).1 ≠ 0 →
      (csys_audio_init clk rtd).1 = (csys_audio_set_mclk clk).1 ∧
      (csys_audio_set_mclk clk).1 ≠ 0) ∧
    csys_audio_startup rtd = (0, []) ∧
    csys_audio_shutdown rtd = [] ∧
    (∀ e ∈ (streamStart clk rtd rate).2, isRegWrite e = false) ∧
    (rate = CSYS_AUDIO_LRCLK →
      (streamStart clk rtd rate).1 ≠ 0 →
      (streamStart clk rtd rate).1 = (csys_audio_set_mclk clk).1 ∧
      (csys_audio_set_mclk clk).1 ≠ 0) := by
  have hstart : csys_audio_startup rtd = (0, []) := by
    simp [csys_audio_startup, h]
  have hss : streamStart clk rtd rate = csys_audio_hw_params clk rate := by
    simp [streamStart, hstart]
  have hw_trace : ∀ e ∈ (csys_audio_hw_params clk rate).2, isRegWrite e = false := by
    intro e he
    unfold csys_audio_hw_params at he
    by_cases hrate : rate = CSYS_AUDIO_LRCLK
    · by_cases hm : (csys_audio_set_mclk clk).1 = 0 <;>
        simp [hrate, hm] at he <;>
        exact set_mclk_no_regWrite clk e he
    · simp [hrate] at he
  refine ⟨?_, ?_, hstart, by simp [csys_audio_shutdown, h], ?_, ?_⟩
  · intro e he
    by_cases hm : (csys_audio_set_mclk clk).1 = 0 <;>
      simp [csys_audio_init, hm, h] at he <;>
      exact set_mclk_no_regWrite clk e he
  · intro hne
    by_cases hm : (csys_audio_set_mclk clk).1 = 0
    · exfalso
      apply hne
      simp [csys_audio_init, hm]
    · refine ⟨?_, hm⟩
      simp [csys_audio_init, hm]
  · rw [hss]
    exact hw_trace
  · intro hrate hne
    rw [hss] at hne ⊢
    by_cases hm : (csys_audio_set_mclk clk).1 = 0
    · exfalso
      apply hne
      simp [csys_audio_hw_params, hrate, hm]
    · refine ⟨?_, hm⟩
      simp [csys_audio_hw_params, hrate, hm]

/-- Witness for C8 at a runtime whose components[1] slot is NULL, with all
clock calls succeeding and the supported rate: the startup callback
returns 0 with no writes, shutdown does nothing, and Card Init and Stream
Start write no register. -/
theorem C8_no_codec_witness :
    csys_audio_startup rtdNoCodec = (0, []) ∧
    csys_audio_shutdown rtdNoCodec = [] ∧
    (∀ e ∈ (csys_audio_init clkOK rtdNoCodec).2, isRegWrite e = false) ∧
    (∀ e ∈ (streamStart clkOK rtdNoCodec CSYS_AUDIO_LRCLK).2, isRegWrite e = false) := by
  have h := C8_no_codec clkOK rtdNoCodec CSYS_AUDIO_LRCLK (by decide)
  exact ⟨h.2.2.1, h.2.2.2.1, h.1, h.2.2.2.2.1⟩

/-- Claim C9: both profile tables end in the 0xFF sentinel entry and no
entry before the sentinel has address 0xFF; the QUIET profile writes
exactly the two output line-level registers (the DAC LOUT1/ROUT1 volume
registers 0x2e and 0x2f), each of which is also written by the ACTIVE
profile, and every QUIET value is zero. -/
theorem C9_tables :
    (regPairs csys_es8328_regs).getLast? = some (0xFF, 0xFF) ∧
    (regPairs csys_es8328_regs_quiet).getLast? = some (0xFF, 0xFF) ∧
    ((regPairs csys_es8328_regs).dropLast.all fun p => p.1 != 0xFF) = true ∧
    ((regPairs csys_es8328_regs_quiet).dropLast.all fun p => p.1 != 0xFF) = true ∧
    writeAddrs (csys_audio_set_es8328_regs csys_es8328_regs_quiet)
      = outputLineLevelRegs ∧
    (∀ y ∈ writeAddrs (csys_audio_set_es8328_regs csys_es8328_regs_quiet),
      y ∈ writeAddrs (csys_audio_set_es8328_regs csys_es8328_regs)) ∧
    ((csys_audio_set_es8328_regs csys_es8328_regs_quiet).all fun e =>
      match e with
      | Ev.regWrite _ v => v == 0
      | Ev.setSysclk _ _ => true) = true := by
  decide

/-- Claim C10: the stream-open startup callback never fails — it returns 0
for every runtime state, with or without a codec — even though it is the
step that applies the ACTIVE profile and, in the Stream Start sequence, it
runs before the sample-rate validation done by hw_params: for every
requested rate, valid or not, Stream Start's trace begins with the startup
step's writes, followed by hw_params' events, and its result is
hw_params' result. -/
theorem C10_startup_total (clk : ClockOracle) (rtd : PcmRuntime) (rate : Nat) :
    (csys_audio_startup rtd).1 = 0 ∧
    (csys_audio_startup rtd).2
      = (if codecPresent rtd then csys_audio_set_es8328_regs csys_es8328_regs
         else []) ∧
    (streamStart clk rtd rate).1 = (csys_audio_hw_params clk rate).1 ∧
    (streamStart clk rtd rate).2
      = (csys_audio_startup rtd).2 ++ (csys_audio_hw_params clk rate).2 := by
  refine ⟨rfl, rfl, ?_, ?_⟩ <;> simp [streamStart, csys_audio_startup]
